import Mathlib

/-!
Verification of the story-generation pipeline: fact store, topic resolver,
fact verifier, storyteller/judge agents and the orchestrator control loop.
Definitions are shallow embeddings of the corresponding Python functions in
src/: mcp_server.py, mcp_expander.py, fact_checker.py, agents.py,
local_backup.py and orchestration.py.  Calls to the remote generation model
are modelled as oracle parameters (a function argument supplying, for each
prompt, either a raised-exception message or the response), so theorems
quantify over every possible model behaviour.
-/

set_option maxRecDepth 100000

/-! ## Python string primitives used by the source

All of these are written by structural recursion on `List Char` so that every
theorem below can be settled on concrete inputs by kernel evaluation. -/

/-- The pattern `pat` occurs at the start of `l`. -/
def isPrefixList : List Char → List Char → Bool
  | [], _ => true
  | x :: xs, ys =>
    match ys with
    | [] => false
    | y :: yt => x = y && isPrefixList xs yt

/-- The pattern `pat` occurs contiguously somewhere in the second list. -/
def isSubList (pat : List Char) : List Char → Bool
  | [] => pat.isEmpty
  | c :: rest => isPrefixList pat (c :: rest) || isSubList pat rest

/-- Python substring test `pat in hay` (contiguous substring). -/
def strContains (hay pat : String) : Bool :=
  isSubList pat.data hay.data

/-- Python `s.upper()` (the source only feeds it ASCII-relevant data). -/
def pyUpper (s : String) : String :=
  String.mk (s.data.map Char.toUpper)

/-- Python `s.lower()`. -/
def pyLower (s : String) : String :=
  String.mk (s.data.map Char.toLower)

/-- Whitespace trim used by Python `s.strip()`. -/
def trimChars (cs : List Char) : List Char :=
  ((cs.dropWhile Char.isWhitespace).reverse.dropWhile Char.isWhitespace).reverse

/-- Python `s.strip()`. -/
def pyStrip (s : String) : String :=
  String.mk (trimChars s.data)

/-- Python `s.lower().strip()`, the normalization used by the fact store and
the expander. -/
def pyLowerStrip (s : String) : String :=
  pyStrip (pyLower s)

/-- Split on a single separator character, Python `s.split(sep)` semantics
(every separator in the source is a one-character string). -/
def splitOnChar (sep : Char) : List Char → List (List Char)
  | [] => [[]]
  | c :: rest =>
    let r := splitOnChar sep rest
    if c = sep then [] :: r
    else
      match r with
      | [] => [[c]]
      | h :: t => (c :: h) :: t

/-- Python `s.split(sep)` for a one-character separator. -/
def pySplit (sep : Char) (s : String) : List String :=
  (splitOnChar sep s.data).map String.mk

/-- Python `s.split(sep, 1)` for a one-character separator: at most one
split, at the first occurrence. -/
def pySplitFirst (sep : Char) (s : String) : List String :=
  match splitOnChar sep s.data with
  | [] => [s]
  | h :: t =>
    if t.isEmpty then [String.mk h]
    else [String.mk h, String.mk (List.intercalate [sep] t)]

/-- Python `s.replace(a, b)` for one-character `a` and `b` (the source only
replaces the hyphen by a space). -/
def pyReplaceChar (a b : Char) (s : String) : String :=
  String.mk (s.data.map (fun c => if c = a then b else c))

/-- Python `sep.join(parts)`. -/
def joinWith (sep : String) : List String → String
  | [] => ""
  | [x] => x
  | x :: xs => x ++ sep ++ joinWith sep xs

/-- Python `s.split()` on whitespace, dropping empty fields (the source only
applies it to single-word category names). -/
def pyWords (s : String) : List String :=
  (pySplit ' ' s).filter (fun w => w ≠ "")

/-- Value of a digit string, most significant first. -/
def digitsVal (cs : List Char) : ℕ :=
  cs.foldl (fun n c => 10 * n + (c.toNat - 48)) 0

/-! ## Exact decimals

Scores in the source are Python floats, but every float the source
manipulates is either a small constant (`0.0`, `5.0`, `6.0`, `7.0`) or the
result of `float()` on a plain decimal literal, and the only operations
applied to them are comparisons.  We therefore model them exactly as
unnormalized decimals `mantissa / 10 ^ exp10`, compared by
cross-multiplication over `ℤ` (which the kernel can evaluate). -/

structure PyFloat where
  mantissa : ℤ
  exp10 : ℕ
deriving DecidableEq

/-- The rational value denoted by an exact decimal. -/
def PyFloat.toRat (a : PyFloat) : ℚ :=
  (a.mantissa : ℚ) / (10 : ℚ) ^ a.exp10

/-- Numeric `a <= b` on exact decimals, by cross-multiplication. -/
def PyFloat.le (a b : PyFloat) : Bool :=
  decide (a.mantissa * (10 : ℤ) ^ b.exp10 ≤ b.mantissa * (10 : ℤ) ^ a.exp10)

/-- Numeric `a >= b` on exact decimals. -/
def PyFloat.ge (a b : PyFloat) : Bool :=
  PyFloat.le b a

/-- Numeric equality on exact decimals. -/
def PyFloat.eqv (a b : PyFloat) : Bool :=
  decide (a.mantissa * (10 : ℤ) ^ b.exp10 = b.mantissa * (10 : ℤ) ^ a.exp10)

/-- The float constant `n.0`. -/
def PyFloat.ofNat (n : ℕ) : PyFloat :=
  ⟨(n : ℤ), 0⟩

/-- Python `float(s)` restricted to optionally signed plain decimal literals
(`"7"`, `"7.5"`, `"7."`, `".5"`, with surrounding whitespace).  Exponents,
`inf`, `nan` and underscore separators are mapped to `none`; the claims only
ever pin the parse result on plain decimals, and an unparseable string takes
the same `none` branch as a Python `ValueError` (swallowed by the caller). -/
def pyFloat? (s : String) : Option PyFloat :=
  let t := pyStrip s
  let signBody : ℤ × List Char :=
    match t.data with
    | '-' :: rest => (-1, rest)
    | '+' :: rest => (1, rest)
    | cs => (1, cs)
  let sign := signBody.1
  let body := signBody.2
  match pySplit '.' (String.mk body) with
  | [i] =>
    if i ≠ "" ∧ i.data.all Char.isDigit then
      some ⟨sign * (digitsVal i.data : ℤ), 0⟩
    else none
  | [i, f] =>
    if (i ≠ "" ∨ f ≠ "") ∧ i.data.all Char.isDigit ∧ f.data.all Char.isDigit then
      some ⟨sign * ((digitsVal i.data : ℤ) * (10 : ℤ) ^ f.length + (digitsVal f.data : ℤ)),
            f.length⟩
    else none
  | _ => none

/-! ## Fact Store (mcp_server.py)

`EDUCATIONAL_FACTS` is the hardcoded category → topic → fact table, kept in
Python dict insertion order (an ordered association list here). -/

def EDUCATIONAL_FACTS : List (String × List (String × String)) :=
  [ ("space",
      [ ("mars", "Mars is the fourth planet from the Sun and is known as the Red Planet due to iron oxide on its surface. A day on Mars is about 24.6 hours, similar to Earth. Mars has two small moons: Phobos and Deimos."),
        ("moon", "The Moon is Earth\x27s only natural satellite. It takes about 27.3 days to orbit Earth. The Moon\x27s gravity causes ocean tides on Earth. Humans first landed on the Moon in 1969."),
        ("sun", "The Sun is a star at the center of our solar system. It\x27s about 4.6 billion years old and provides light and heat to all planets. The Sun is so large that about 1.3 million Earths could fit inside it."),
        ("stars", "Stars are giant balls of hot gas that produce light and heat through nuclear fusion. The closest star to Earth is the Sun. Stars come in different colors: blue (hottest), white, yellow, orange, and red (coolest)."),
        ("planets", "There are 8 planets in our solar system: Mercury, Venus, Earth, Mars, Jupiter, Saturn, Uranus, and Neptune. The first four are rocky planets, and the last four are gas giants.") ]),
    ("dinosaurs",
      [ ("t-rex", "Tyrannosaurus Rex, or T-Rex, lived about 68-66 million years ago. It was one of the largest meat-eating dinosaurs, about 40 feet long and 12 feet tall. T-Rex had powerful jaws with teeth up to 8 inches long."),
        ("triceratops", "Triceratops was a plant-eating dinosaur with three horns on its head. It lived about 68-66 million years ago and was about 30 feet long. The name Triceratops means \x27three-horned face\x27."),
        ("brachiosaurus", "Brachiosaurus was one of the tallest dinosaurs, with a very long neck. It was a plant-eater that lived about 154-153 million years ago. It could reach heights of up to 50 feet tall."),
        ("stegosaurus", "Stegosaurus was a plant-eating dinosaur with distinctive plates along its back and spikes on its tail. It lived about 155-150 million years ago and was about 30 feet long.") ]),
    ("animals",
      [ ("elephants", "Elephants are the largest land animals on Earth. They have excellent memories and can live up to 70 years. African elephants have larger ears than Asian elephants. Elephants use their trunks to breathe, smell, touch, and grab things."),
        ("whales", "Whales are the largest animals in the ocean. Blue whales are the biggest animals that have ever lived on Earth, even bigger than dinosaurs. Whales are mammals, which means they breathe air and feed milk to their babies."),
        ("penguins", "Penguins are birds that cannot fly but are excellent swimmers. They live in cold places like Antarctica. Penguins have waterproof feathers and can dive deep into the ocean to catch fish. They walk upright and often slide on their bellies."),
        ("lions", "Lions are known as the \x27king of the jungle\x27 and live in groups called prides. Male lions have manes around their heads. Lions are carnivores and hunt in groups. They can sleep up to 20 hours a day."),
        ("dolphins", "Dolphins are highly intelligent marine mammals. They communicate using clicks and whistles. Dolphins are known for their playful behavior and can jump high out of the water. They live in groups called pods.") ]),
    ("ocean",
      [ ("coral", "Coral reefs are underwater structures made by tiny animals called coral polyps. They are home to many colorful fish and sea creatures. Coral reefs are often called the \x27rainforests of the sea\x27 because of their biodiversity."),
        ("sharks", "Sharks have been around for over 400 million years. They have special sensors that can detect electrical fields from other animals. Most sharks are not dangerous to humans. Sharks have no bones - their skeletons are made of cartilage."),
        ("octopus", "Octopuses are very intelligent sea creatures with 8 arms. They can change color and texture to blend in with their surroundings. Octopuses have three hearts and blue blood. They can squeeze through very small spaces.") ]) ]

/-- First value stored under key `k` in an ordered association list
(Python dict lookup). -/
def lookupKey (l : List (String × String)) (k : String) : Option String :=
  (l.find? (fun p => p.1 = k)).map (fun p => p.2)

/-- Model of `available_topics`: every topic key, in category-then-insertion order
(mcp_server.py lines 68-71). -/
def allTopicKeys : List String :=
  (EDUCATIONAL_FACTS.map (fun c => c.2.map (fun p => p.1))).flatten

/-- The not-found reply of `_get_educational_fact_impl`, enumerating the
first 10 known topics (mcp_server.py line 72). -/
def notFoundMessage (topic : String) : String :=
  "I don\x27t have specific facts about \x27" ++ topic ++
    "\x27 yet. Available topics include: " ++
    joinWith ", " (allTopicKeys.take 10) ++
    ". I\x27ll use general knowledge to make the story educational!"

/-- The general-fact reply produced when a topic matches a category rather
than a stored key (mcp_server.py line 65): the original (unnormalized) topic
is interpolated, followed by the category\x27s first stored fact. -/
def catMessage (topic : String) (cat : String × List (String × String)) : String :=
  "Here\x27s a fact about " ++ topic ++ ": " ++ ((cat.2.headD ("", "")).2)

/-- One category step of `_get_educational_fact_impl`: exact key match first,
then the category-keyword test `topic_lower in category or
any(keyword in topic_lower for keyword in category.split())`. -/
def catNameMatch (topicLower : String) (cat : String × List (String × String)) : Bool :=
  strContains cat.1 topicLower || (pyWords cat.1).any (fun w => strContains topicLower w)

/-- The category scan of `_get_educational_fact_impl` (mcp_server.py
lines 57-65): returns the reply produced by the first matching category. -/
def factSearch (topic topicLower : String) :
    List (String × List (String × String)) → Option String
  | [] => none
  | cat :: rest =>
    match lookupKey cat.2 topicLower with
    | some f => some f
    | none =>
      if catNameMatch topicLower cat then some (catMessage topic cat)
      else factSearch topic topicLower rest

/-- Model of `_get_educational_fact_impl` (mcp_server.py lines 42-72). -/
def getEducationalFactImpl (topic : String) : String :=
  let topicLower := pyLowerStrip topic
  match factSearch topic topicLower EDUCATIONAL_FACTS with
  | some reply => reply
  | none => notFoundMessage topic

/-! ## Topic Resolver (mcp_expander.py, class MCPExpander)

The alias and keyword tables are the instance attributes set in
`MCPExpander.__init__`, kept in dict insertion order. -/

def topic_aliases : List (String × String) :=
  [ ("red planet", "mars"),
    ("martian", "mars"),
    ("lunar", "moon"),
    ("solar", "sun"),
    ("star", "stars"),
    ("planet", "planets"),
    ("jupiter", "planets"),
    ("saturn", "planets"),
    ("earth", "planets"),
    ("tyrannosaurus", "t-rex"),
    ("tyrannosaurus rex", "t-rex"),
    ("triceratops", "triceratops"),
    ("brachiosaurus", "brachiosaurus"),
    ("stegosaurus", "stegosaurus"),
    ("dinosaur", "t-rex"),
    ("dinos", "t-rex"),
    ("elephant", "elephants"),
    ("whale", "whales"),
    ("penguin", "penguins"),
    ("lion", "lions"),
    ("dolphin", "dolphins"),
    ("coral reef", "coral"),
    ("shark", "sharks"),
    ("octopus", "octopus") ]

def category_keywords : List (String × List String) :=
  [ ("space", ["space", "planet", "mars", "moon", "sun", "star", "solar", "galaxy", "astronaut", "rocket", "orbit"]),
    ("dinosaurs", ["dinosaur", "dino", "jurassic", "fossil", "prehistoric", "extinct", "t-rex", "triceratops"]),
    ("animals", ["animal", "wildlife", "creature", "mammal", "elephant", "whale", "penguin", "lion", "dolphin"]),
    ("ocean", ["ocean", "sea", "marine", "underwater", "coral", "shark", "octopus", "fish", "whale"]) ]

/-- Model of `MCPExpander.expand_topic` (mcp_expander.py lines 56-82): exact alias
key, then first alias occurring as a substring of the topic, then exact
presence as a topic key in the knowledge base. -/
def expand_topic (topic : String) : Option String :=
  let topicLower := pyLowerStrip topic
  match lookupKey topic_aliases topicLower with
  | some canonical => some canonical
  | none =>
    match topic_aliases.find? (fun p => strContains topicLower p.1) with
    | some p => some p.2
    | none =>
      if EDUCATIONAL_FACTS.any (fun c => c.2.any (fun p => p.1 = topicLower)) then
        some topicLower
      else none

/-- Model of `MCPExpander.infer_category` (mcp_expander.py lines 84-102): first
category, in declared order, one of whose keywords occurs as a substring of
the lowercased topic.  Note the source lowercases but does not strip here. -/
def infer_category (topic : String) : Option String :=
  let topicLower := pyLower topic
  (category_keywords.find? (fun p => p.2.any (fun k => strContains topicLower k))).map
    (fun p => p.1)

/-- Model of `next(iter(EDUCATIONAL_FACTS[category]))`: the first declared topic key
of a category. -/
def firstTopicOf (category : String) : String :=
  match EDUCATIONAL_FACTS.find? (fun c => c.1 = category) with
  | some c => (c.2.headD ("", "")).1
  | none => ""

/-- Return value of `MCPExpander.get_fact_with_expansion`. -/
structure FactRecord where
  original_topic : String
  used_topic : String
  category : Option String
  fact : String
  expanded : Bool
  category_inferred : Bool
deriving DecidableEq

/-- Model of `MCPExpander.get_fact_with_expansion` (mcp_expander.py lines 104-140). -/
def get_fact_with_expansion (topic : String) : FactRecord :=
  let expandedTopic := expand_topic topic
  let category := infer_category topic
  let usedFact : String × String :=
    match expandedTopic with
    | some e => (e, getEducationalFactImpl e)
    | none =>
      match category with
      | some c =>
        if EDUCATIONAL_FACTS.any (fun p => p.1 = c) then
          (firstTopicOf c, getEducationalFactImpl (firstTopicOf c))
        else (topic, getEducationalFactImpl topic)
      | none => (topic, getEducationalFactImpl topic)
  { original_topic := topic
    used_topic := usedFact.1
    category := category
    fact := usedFact.2
    expanded := expandedTopic.isSome
    category_inferred := category.isSome }

/-- First phase of `MCPExpander.detect_topics_in_text` (mcp_expander.py
lines 155-159): every stored topic key that occurs in the lowercased text,
either verbatim or with hyphens replaced by spaces. -/
def detectFromTopics (textLower : String) : List String :=
  (EDUCATIONAL_FACTS.map (fun c =>
    (c.2.filter (fun p =>
      strContains textLower p.1 || strContains textLower (pyReplaceChar '-' ' ' p.1))).map
      (fun p => p.1))).flatten

/-- Second phase (lines 161-164): aliases occurring in the text, mapped to
their canonical topic, skipping canonicals already detected. -/
def detectAddAliases (textLower : String) (acc : List String) : List String :=
  topic_aliases.foldl
    (fun acc p =>
      if strContains textLower p.1 && !(acc.contains p.2) then acc ++ [p.2] else acc)
    acc

/-- Third phase (lines 166-175): for each category with a keyword occurring
in the text, add the category\x27s first declared topic as a representative,
unless already detected. -/
def detectAddKeywords (textLower : String) (acc : List String) : List String :=
  category_keywords.foldl
    (fun acc p =>
      if p.2.any (fun k => strContains textLower k) then
        if EDUCATIONAL_FACTS.any (fun c => c.1 = p.1) then
          (if acc.contains (firstTopicOf p.1) then acc else acc ++ [firstTopicOf p.1])
        else acc
      else acc)
    acc

/-- Model of `MCPExpander.detect_topics_in_text` (mcp_expander.py lines 142-177).
The source ends with `list(set(detected))`, whose iteration order CPython
does not pin down; we model it as deduplication of the accumulated list.
Every claim proved about this function is insensitive to the order. -/
def detect_topics_in_text (text : String) : List String :=
  let textLower := pyLower text
  (detectAddKeywords textLower (detectAddAliases textLower (detectFromTopics textLower))).dedup

/-! ## Model-call outcomes

Every call to the underlying generation model is represented by an
`Except String String`: `Except.error msg` models the call raising an
exception whose `str(e)` is `msg`, and `Except.ok text` models a response
from which the given text was extracted. -/

/-! ## Fact Verifier (fact_checker.py, class FactChecker) -/

/-- Return value of `FactChecker.verify_fact`.  `error` models the `error`
key, present only in the failure branch. -/
structure VerificationRecord where
  fact : String
  topic : String
  accuracy : String
  score : PyFloat
  age_appropriate : Bool
  concerns : String
  verdict : String
  is_verified : Bool
  error : Option String
deriving DecidableEq

/-- Parser state threaded through the line loop of
`FactChecker.verify_fact` (fact_checker.py lines 89-119). -/
structure VerifyParseState where
  accuracy : String
  score : PyFloat
  age_appropriate : Bool
  concerns : String
  verdict : String
deriving DecidableEq

/-- One iteration of the `for line in verification_text.split('\n')` loop of
`FactChecker.verify_fact`: an if/elif chain keyed on substrings of the
uppercased line. -/
def verifyParseLine (st : VerifyParseState) (line : String) : VerifyParseState :=
  let lineUpper := pyUpper line
  if strContains lineUpper "ACCURACY:" then
    if strContains lineUpper "TRUE" then { st with accuracy := "true" }
    else if strContains lineUpper "FALSE" then { st with accuracy := "false" }
    else if strContains lineUpper "PARTIALLY" then { st with accuracy := "partially_true" }
    else st
  else if strContains lineUpper "SCORE:" then
    match pySplit ':' line with
    | _ :: p :: _ =>
      match pyFloat? (((pySplit '/' (pyStrip p)).headD "")) with
      | some v => { st with score := v }
      | none => st
    | _ => st
  else if strContains lineUpper "AGE_APPROPRIATE:" then
    if strContains lineUpper "NO" then { st with age_appropriate := false } else st
  else if strContains lineUpper "CONCERNS:" then
    if strContains line ":" then
      { st with concerns := pyStrip ((pySplitFirst ':' line).getD 1 "") }
    else { st with concerns := "" }
  else if strContains lineUpper "VERDICT:" then
    if strContains lineUpper "NEEDS_CORRECTION" then { st with verdict := "NEEDS_CORRECTION" }
    else if strContains lineUpper "INACCURATE" then { st with verdict := "INACCURATE" }
    else st
  else st

/-- Model of `FactChecker.verify_fact` (fact_checker.py lines 46-145), as a function
of the model-call outcome.  The failure branch (lines 133-145) defaults to a
VERIFIED record with score 5.0 and the failure reason in `concerns`, so that
verification never blocks generation. -/
def verify_fact (fact topic : String) (outcome : Except String String) : VerificationRecord :=
  match outcome with
  | Except.error e =>
    { fact := fact
      topic := topic
      accuracy := "unknown"
      score := PyFloat.ofNat 5
      age_appropriate := true
      concerns := "Verification failed: " ++ e
      verdict := "VERIFIED"
      is_verified := true
      error := some e }
  | Except.ok verificationText =>
    let init : VerifyParseState :=
      { accuracy := "unknown", score := PyFloat.ofNat 7, age_appropriate := true,
        concerns := "", verdict := "VERIFIED" }
    let st := (pySplit '\n' verificationText).foldl verifyParseLine init
    { fact := fact
      topic := topic
      accuracy := st.accuracy
      score := st.score
      age_appropriate := st.age_appropriate
      concerns := st.concerns
      verdict := st.verdict
      is_verified := st.verdict = "VERIFIED"
      error := none }

/-! ## Storyteller agent (agents.py, class GeminiStoryteller) -/

/-- The first candidate of a model response, as inspected by
`GeminiStoryteller.generate_story` (agents.py lines 141-152):
`candContent` is the truthiness of `candidate.content`, and `parts` lists
each part\x27s text, `none` standing for a part with no (truthy) `text`
attribute. -/
structure CandidateView where
  candContent : Bool
  parts : List (Option String)
deriving DecidableEq

/-- A model response as inspected by `GeminiStoryteller.generate_story`:
`text` is `some t` when `response.text` exists and is truthy (so `t` is
nonempty), `candidates` is `some c` when `response.candidates` exists and is
nonempty, `c` being its first element. -/
structure ModelResp where
  text : Option String
  candidates : Option CandidateView
deriving DecidableEq

/-- Outcome of the `model.generate_content` call inside
`GeminiStoryteller.generate_story`: either an exception or a response.  The
orchestrator always calls `generate_story` without tools, so the
tool-retry branch (agents.py lines 118-131) is never exercised and the two
code paths collapse to one `generate_content` outcome. -/
inductive GenOutcome where
  | raised (msg : String)
  | ok (resp : ModelResp)
deriving DecidableEq

/-- Return value of `GeminiStoryteller.generate_story`: the `story` and
`is_valid` keys, plus the `error` key present only in the failure branch.
(The `raw_response` key, a handle on the provider object, is not modelled.) -/
structure GenAttempt where
  story : String
  is_valid : Bool
  error : Option String
deriving DecidableEq

/-- Text extraction of `GeminiStoryteller.generate_story`
(agents.py lines 138-154). -/
def extractStory (resp : ModelResp) : String :=
  match resp.text with
  | some t => t
  | none =>
    match resp.candidates with
    | some cand =>
      if cand.candContent then
        match cand.parts with
        | [] => "Story generation completed."
        | ps =>
          let textParts := (ps.filterMap id).filter (fun t => t ≠ "")
          if textParts.isEmpty then "Story generation completed."
          else joinWith " " textParts
      else "Story generation completed."
    | none => "Error: Could not extract story from response"

/-- Model of `GeminiStoryteller.generate_story` (agents.py lines 87-169) as a
function of the model-call outcome.  Every response, even one with no
extractable text, is returned with `is_valid := true`; only a raised
exception produces `is_valid := false` with the `error` key set. -/
def generate_story (outcome : GenOutcome) : GenAttempt :=
  match outcome with
  | GenOutcome.raised msg =>
    { story := "Error generating story: " ++ msg, is_valid := false, error := some msg }
  | GenOutcome.ok resp =>
    { story := extractStory resp, is_valid := true, error := none }

/-! ## Judge agent (agents.py, class GeminiJudge) -/

/-- Return value of `GeminiJudge.evaluate_story` (the `raw_response` key
duplicates `detailed_feedback` in the success branch and is not modelled
separately). -/
structure EvalRecord where
  overall_score : PyFloat
  verdict : String
  meets_threshold : Bool
  detailed_feedback : String
deriving DecidableEq

/-- One iteration of the `for line in evaluation_text.split('\n')` loop of
`GeminiJudge.evaluate_story` (agents.py lines 266-275), updating the
(score, verdict) pair. -/
def evalParseLine (st : PyFloat × String) (line : String) : PyFloat × String :=
  let lineUpper := pyUpper line
  let score :=
    if strContains lineUpper "OVERALL_SCORE" then
      match pySplit ':' line with
      | _ :: p :: _ =>
        match pyFloat? (((pySplit '/' (pyStrip p)).headD "")) with
        | some v => v
        | none => st.1
      | _ => st.1
    else st.1
  let verdict :=
    if strContains lineUpper "VERDICT" then
      if strContains lineUpper "NEEDS_REVISION" then "NEEDS_REVISION" else st.2
    else st.2
  (score, verdict)

/-- Model of `GeminiJudge.evaluate_story` (agents.py lines 213-293) as a function of
the model-call outcome.  The score defaults to 7.0 and the verdict to
APPROVED when unparseable, and `meets_threshold` is computed as
`overall_score >= 7.0` — a literal 7.0; the function receives no threshold
from the orchestrator.  On a raised exception the fallback record of
lines 285-293 is returned. -/
def evaluate_story (outcome : Except String String) : EvalRecord :=
  match outcome with
  | Except.error e =>
    { overall_score := PyFloat.ofNat 5
      verdict := "NEEDS_REVISION"
      meets_threshold := false
      detailed_feedback := "Error during evaluation: " ++ e }
  | Except.ok evaluationText =>
    let st := (pySplit '\n' evaluationText).foldl evalParseLine (PyFloat.ofNat 7, "APPROVED")
    { overall_score := st.1
      verdict := st.2
      meets_threshold := PyFloat.ge st.1 (PyFloat.ofNat 7)
      detailed_feedback := evaluationText }

/-- Model of `GeminiJudge.generate_revision_prompt` (agents.py lines 295-317). -/
def generate_revision_prompt (story feedback userRequest : String) : String :=
  "Please revise this story based on the judge\x27s feedback:\n\nOriginal Request: " ++
    userRequest ++ "\n\nCurrent Story:\n" ++ story ++ "\n\nJudge Feedback:\n" ++ feedback ++
    "\n\nPlease improve the story while maintaining the core narrative and educational elements."

/-! ## Fallback generator (local_backup.py, class OllamaBackup)

The Ollama call itself is an external process; the orchestrator only
inspects the returned dictionary, modelled here.  `model` is present only
in the success branch of `generate_with_ollama` and `error` only in its
failure branches. -/

structure BackupResult where
  story : String
  is_valid : Bool
  error : Option String
  model : Option String
deriving DecidableEq

/-! ## Orchestrator (orchestration.py, class StoryOrchestrator) -/

/-- One Tool Call Record as assembled by
`StoryOrchestrator._detect_and_fetch_facts` (orchestration.py
lines 103-111).  `arguments_topic` is the single `topic` entry of the
`arguments` dictionary. -/
structure ToolCall where
  function : String
  arguments_topic : String
  result : String
  original_topic : String
  category : Option String
  expanded : Bool
  verification : Option VerificationRecord
deriving DecidableEq

/-- The final dictionary returned by the orchestrator
(`_generate_with_gemini` lines 254-265, `_generate_with_fallback`
lines 279-305).  `fallback_used` and `error` are keys only some branches
set; every consumer reads them with `.get(key, default)`, so an absent key
is modelled as `false` / `none`.  The `parent_settings` echo of the static
configuration is not modelled (no claim mentions it). -/
structure GenResult where
  story : String
  user_request : String
  revision_count : ℕ
  judge_score : PyFloat
  judge_feedback : String
  meets_quality_threshold : Bool
  tool_calls : List ToolCall
  model_used : String
  mcp_enabled : Bool
  fallback_used : Bool
  error : Option String
deriving DecidableEq

/-- Model of `StoryOrchestrator._detect_and_fetch_facts` (orchestration.py
lines 69-113).  `verifyO` models the optional fact checker: it returns
`none` when `self.fact_checker` is `None` or `verify_fact` raised (the
bare `except: pass` of lines 100-101), and `some record` otherwise. -/
def detect_and_fetch_facts
    (verifyO : String → String → Option VerificationRecord)
    (userRequest : String) : List ToolCall :=
  (detect_topics_in_text userRequest).map (fun topic =>
    let factData := get_fact_with_expansion topic
    { function := "get_educational_fact"
      arguments_topic := factData.used_topic
      result := factData.fact
      original_topic := factData.original_topic
      category := factData.category
      expanded := factData.expanded
      verification := verifyO factData.fact factData.used_topic })

/-- Truthiness of the `verification and verification.get(...)` check on the
`is_verified` key (orchestration.py line 163). -/
def toolCallVerified (tc : ToolCall) : Bool :=
  match tc.verification with
  | some v => v.is_verified
  | none => false

/-- One entry of `facts_parts` (orchestration.py lines 163-167). -/
def factPart (tc : ToolCall) : String :=
  if toolCallVerified tc then
    "✅ Verified fact about " ++ tc.arguments_topic ++ ": " ++ tc.result
  else
    "Educational fact about " ++ tc.arguments_topic ++ ": " ++ tc.result

/-- The augmented request built when at least one fact was fetched
(orchestration.py lines 156-179). -/
def buildEnhancedRequest (userRequest : String) (toolCalls : List ToolCall) : String :=
  userRequest ++
    "\n\nIMPORTANT: Incorporate these educational facts naturally into the story:\n" ++
    joinWith "\n\n" (toolCalls.map factPart) ++
    "\n\nMake sure the story is educational while remaining engaging and age-appropriate. Use the verified facts (marked with ✓) as primary sources."

/-- The Tool Call Records accumulated before the initial generation
(orchestration.py lines 148-150 and 191): present only when MCP is enabled
(`self.mcp_client` is constructed exactly when `enable_mcp` holds). -/
def orchestratorToolCalls
    (enableMcp : Bool) (verifyO : String → String → Option VerificationRecord)
    (userRequest : String) : List ToolCall :=
  if enableMcp then detect_and_fetch_facts verifyO userRequest else []

/-- The prompt handed to the initial `generate_story` call
(orchestration.py lines 152-190): the request is augmented only when MCP is
enabled and at least one topic was detected. -/
def orchestratorPrompt
    (enableMcp : Bool) (verifyO : String → String → Option VerificationRecord)
    (userRequest : String) : String :=
  if enableMcp then
    let toolCalls := detect_and_fetch_facts verifyO userRequest
    if toolCalls.isEmpty then userRequest else buildEnhancedRequest userRequest toolCalls
  else userRequest

/-- Model of `StoryOrchestrator._generate_with_fallback` (orchestration.py
lines 267-305). -/
def generate_with_fallback (backup : BackupResult) (userRequest : String) : GenResult :=
  if backup.is_valid then
    { story := backup.story
      user_request := userRequest
      revision_count := 0
      judge_score := PyFloat.ofNat 6
      judge_feedback := "Story generated using local Ollama fallback. Judge evaluation skipped."
      meets_quality_threshold := false
      tool_calls := []
      model_used := backup.model.getD "ollama"
      mcp_enabled := false
      fallback_used := true
      error := none }
  else
    { story := "Story generation failed. Please check your API keys and Ollama installation."
      user_request := userRequest
      revision_count := 0
      judge_score := PyFloat.ofNat 0
      judge_feedback := backup.error.getD "Unknown error"
      meets_quality_threshold := false
      tool_calls := []
      model_used := "none"
      mcp_enabled := false
      fallback_used := true
      error := some (backup.error.getD "Generation failed") }

/-- The iterative refinement loop of `_generate_with_gemini`
(orchestration.py lines 203-249), returning the final story and revision
count.  `judgeE` is the judge (`evaluate_story` composed with the model
oracle); `revise` abstracts the revised-generation call — its argument is
the prompt the chosen path sends (the `generate_revision_prompt` output for
`mcp_client.process_with_tools`, or the request-plus-revision-instructions
prompt `GeminiStoryteller.generate_story` builds from its
`revision_context`) and its result the attempt the orchestrator inspects.
`fuel` makes the recursion structural; the caller passes
`fuel := max_revisions`, which dominates the number of iterations (each
iteration either returns or increments `rc`, and the loop guard
`rc < max_revisions` fails once `rc` reaches `max_revisions`), so the
`fuel = 0` branch coincides with the guard failing and the function equals
the Python `while` loop. -/
def refineLoop (enableMcp : Bool) (maxRevisions : ℕ)
    (judgeE : String → EvalRecord) (revise : String → GenAttempt)
    (userRequest : String) : ℕ → String → ℕ → String × ℕ
  | 0, story, rc => (story, rc)
  | fuel + 1, story, rc =>
    if rc < maxRevisions then
      let ev := judgeE story
      if ev.meets_threshold then (story, rc)
      else if rc < maxRevisions - 1 then
        let prompt :=
          if enableMcp then generate_revision_prompt story ev.detailed_feedback userRequest
          else userRequest ++ "\n\nRevision instructions: " ++ ev.detailed_feedback
        let revised := revise prompt
        if revised.is_valid then
          refineLoop enableMcp maxRevisions judgeE revise userRequest fuel revised.story (rc + 1)
        else (story, rc)
      else (story, rc)
    else (story, rc)

/-- Model of `StoryOrchestrator._generate_with_gemini` (orchestration.py
lines 140-265).  `gen` is the initial `generate_story` call on the
(possibly augmented) prompt, `Except.error` modelling a raised exception
(caught at lines 198-201 and routed to the fallback, like an
`is_valid=false` attempt at lines 193-197); `judgeOut` is the judge model
outcome for a given story (the judge itself never raises —
`evaluate_story` catches internally); `revise` and `verifyO` are as in
`refineLoop` and `detect_and_fetch_facts`; `backup` is the Ollama result
used if the fallback is taken. -/
def generate_with_gemini
    (enableMcp : Bool) (maxRevisions : ℕ)
    (verifyO : String → String → Option VerificationRecord)
    (gen : String → Except String GenAttempt)
    (judgeOut : String → Except String String)
    (revise : String → GenAttempt)
    (backup : BackupResult)
    (userRequest : String) : GenResult :=
  let toolCalls := orchestratorToolCalls enableMcp verifyO userRequest
  match gen (orchestratorPrompt enableMcp verifyO userRequest) with
  | Except.error _ => generate_with_fallback backup userRequest
  | Except.ok initial =>
    if !initial.is_valid then generate_with_fallback backup userRequest
    else
      let judgeE := fun story => evaluate_story (judgeOut story)
      let final := refineLoop enableMcp maxRevisions judgeE revise userRequest
        maxRevisions initial.story 0
      let finalEval := judgeE final.1
      { story := final.1
        user_request := userRequest
        revision_count := final.2
        judge_score := finalEval.overall_score
        judge_feedback := finalEval.detailed_feedback
        meets_quality_threshold := finalEval.meets_threshold
        tool_calls := toolCalls
        model_used := "gemini-2.5-flash"
        mcp_enabled := enableMcp
        fallback_used := false
        error := none }

/-! ## Characterization helpers for the claims -/

/-- The fact stored under an (already normalized) topic key, across all
categories — the pure key→fact view of the Fact Store that claim C7 speaks
about. -/
def storedFact? (topicLower : String) : Option String :=
  lookupKey (EDUCATIONAL_FACTS.map (fun c => c.2)).flatten topicLower

/-- The first category, in declared order, whose name matches the
normalized topic under the category test of `_get_educational_fact_impl`. -/
def firstNameMatchCat? (topicLower : String) :
    Option (String × List (String × String)) :=
  EDUCATIONAL_FACTS.find? (fun c => catNameMatch topicLower c)

/-- Spec-side restatement of `expandTopic` (§4.2): exact alias match, then
first alias occurring as a substring, then exact presence as a Fact Store
topic key — first stage to produce a value wins. -/
def expandTopicSpec (topic : String) : Option String :=
  let topicLower := pyLowerStrip topic
  ((lookupKey topic_aliases topicLower).orElse
    (fun _ => (topic_aliases.find? (fun p => strContains topicLower p.1)).map
      (fun p => p.2))).orElse
    (fun _ => if allTopicKeys.contains topicLower then some topicLower else none)

/-- Hypothesis of claim C10: no Fact Store topic (verbatim or with hyphens
replaced by spaces), no alias and no category keyword occurs as a substring
of the lowercased request text. -/
def noKnownTopicIn (text : String) : Bool :=
  let textLower := pyLower text
  allTopicKeys.all (fun t =>
      !(strContains textLower t) && !(strContains textLower (pyReplaceChar '-' ' ' t))) &&
    topic_aliases.all (fun p => !(strContains textLower p.1)) &&
    category_keywords.all (fun p => p.2.all (fun k => !(strContains textLower k)))

/-! ## Helper lemmas -/

/-- The comparison `PyFloat.le` agrees with the ordering of the denoted rationals, so the
comparisons in the definitions above have genuine Python-float meaning. -/
theorem PyFloat.le_iff_toRat (a b : PyFloat) :
    PyFloat.le a b = true ↔ a.toRat ≤ b.toRat := by
  have hb : (0 : ℚ) < (10 : ℚ) ^ b.exp10 := by positivity
  have ha : (0 : ℚ) < (10 : ℚ) ^ a.exp10 := by positivity
  rw [PyFloat.le, decide_eq_true_eq, PyFloat.toRat, PyFloat.toRat,
    div_le_div_iff₀ ha hb]
  constructor
  · intro h
    exact_mod_cast h
  · intro h
    exact_mod_cast h

lemma isPrefixList_refl : ∀ l : List Char, isPrefixList l l = true := by
  intro l
  induction l with
  | nil => rfl
  | cons c t ih => simp [isPrefixList, ih]

lemma isSubList_append_self : ∀ (p l : List Char), isSubList l (p ++ l) = true := by
  intro p
  induction p with
  | nil =>
    intro l
    cases l with
    | nil => rfl
    | cons c t => simp [isSubList, isPrefixList_refl]
  | cons c t ih =>
    intro l
    simp [isSubList, ih l]

/-- A string contains any suffix obtained by appending it to a prefix. -/
lemma strContains_append_right (p l : String) : strContains (p ++ l) l = true := by
  cases p with
  | mk pd =>
    cases l with
    | mk ld => exact isSubList_append_self pd ld

/-- Appending to a nonempty literal never yields the empty string. -/
lemma append_ne_empty_of_left_ne (p s : String) (h : p.length ≠ 0) : p ++ s ≠ "" := by
  intro he
  have hl := congrArg String.length he
  rw [String.length_append] at hl
  have h0 : ("" : String).length = 0 := rfl
  rw [h0] at hl
  omega

/-- Every stored pair key is in the flattened topic-key list. -/
lemma mem_allTopicKeys {cat : String × List (String × String)} {p : String × String}
    (hc : cat ∈ EDUCATIONAL_FACTS) (hp : p ∈ cat.2) : p.1 ∈ allTopicKeys := by
  simp only [allTopicKeys, List.mem_flatten, List.mem_map]
  exact ⟨cat.2.map (fun q => q.1), ⟨cat, hc, rfl⟩, List.mem_map.mpr ⟨p, hp, rfl⟩⟩

/-- A successful association-list lookup pins down a member pair. -/
lemma lookupKey_some {l : List (String × String)} {k v : String}
    (h : lookupKey l k = some v) : (k, v) ∈ l := by
  unfold lookupKey at h
  cases hf : l.find? (fun p => p.1 = k) with
  | none => rw [hf] at h; exact Option.noConfusion h
  | some p =>
    rw [hf] at h
    have hv : p.2 = v := Option.some.inj h
    have hm := List.mem_of_find?_eq_some hf
    have hk0 := @List.find?_some (String × String) (fun q => decide (q.1 = k)) p l hf
    have hk : p.1 = k := of_decide_eq_true hk0
    subst hv
    subst hk
    exact hm

/-- Both branches of the fallback mark the result as fallback-produced. -/
lemma generate_with_fallback_fallback_used (backup : BackupResult) (req : String) :
    (generate_with_fallback backup req).fallback_used = true := by
  unfold generate_with_fallback
  split <;> rfl

/-- Neither branch of the fallback attaches Tool Call Records. -/
lemma generate_with_fallback_tool_calls (backup : BackupResult) (req : String) :
    (generate_with_fallback backup req).tool_calls = [] := by
  unfold generate_with_fallback
  split <;> rfl

/-- The pipeline either delegated to the fallback, or it completed the
primary path, in which case its result is the final record assembled from
the refinement loop run on some initial story. -/
lemma generate_with_gemini_primary_form (enableMcp : Bool) (maxRevisions : ℕ)
    (verifyO : String → String → Option VerificationRecord)
    (gen : String → Except String GenAttempt)
    (judgeOut : String → Except String String)
    (revise : String → GenAttempt) (backup : BackupResult) (req : String) :
    generate_with_gemini enableMcp maxRevisions verifyO gen judgeOut revise backup req
        = generate_with_fallback backup req ∨
      ∃ s0 : String,
        generate_with_gemini enableMcp maxRevisions verifyO gen judgeOut revise backup req =
          { story := (refineLoop enableMcp maxRevisions
              (fun st => evaluate_story (judgeOut st)) revise req maxRevisions s0 0).1
            user_request := req
            revision_count := (refineLoop enableMcp maxRevisions
              (fun st => evaluate_story (judgeOut st)) revise req maxRevisions s0 0).2
            judge_score := (evaluate_story (judgeOut (refineLoop enableMcp maxRevisions
              (fun st => evaluate_story (judgeOut st)) revise req maxRevisions
                s0 0).1)).overall_score
            judge_feedback := (evaluate_story (judgeOut (refineLoop enableMcp maxRevisions
              (fun st => evaluate_story (judgeOut st)) revise req maxRevisions
                s0 0).1)).detailed_feedback
            meets_quality_threshold := (evaluate_story (judgeOut (refineLoop enableMcp
              maxRevisions (fun st => evaluate_story (judgeOut st)) revise req maxRevisions
                s0 0).1)).meets_threshold
            tool_calls := orchestratorToolCalls enableMcp verifyO req
            model_used := "gemini-2.5-flash"
            mcp_enabled := enableMcp
            fallback_used := false
            error := none } := by
  unfold generate_with_gemini
  cases gen (orchestratorPrompt enableMcp verifyO req) with
  | error e => exact Or.inl rfl
  | ok initial =>
    dsimp only
    cases hv : initial.is_valid with
    | false => exact Or.inl rfl
    | true => exact Or.inr ⟨initial.story, rfl⟩

/-! ## Claim C1 -/

/-- C1: the claim states that `meets_threshold = (overall_score >= t)` for
the `quality_threshold` `t` configured on the Orchestrator.  The
orchestrator stores `quality_threshold` (documented as the minimum judge
score for approval) but never passes it on, and `GeminiJudge.evaluate_story`
compares against a literal 7.0.  Concretely: with configured threshold 8.0
and a judge response scoring 7.5, the code returns `meets_threshold = true`
although 7.5 < 8.0. -/
theorem judge_threshold_hardcoded_despite_config :
    (evaluate_story (Except.ok "OVERALL_SCORE: 7.5/10\nVERDICT: NEEDS_REVISION")).overall_score
        = ⟨75, 1⟩ ∧
    (evaluate_story (Except.ok "OVERALL_SCORE: 7.5/10\nVERDICT: NEEDS_REVISION")).meets_threshold
        = true ∧
    PyFloat.ge ⟨75, 1⟩ (PyFloat.ofNat 8) = false := by
  decide

/-! ## Claim C4 -/

/-- C4 counterexample: for a model response with no extractable text (no
truthy `response.text` and no candidates), `GeminiStoryteller.generate_story`
returns `is_valid = true` with a placeholder story and no error key — not
the `is_valid = false` the claim requires for empty output. -/
theorem empty_output_marked_valid_cex :
    (generate_story (GenOutcome.ok { text := none, candidates := none })).is_valid = true ∧
    (generate_story (GenOutcome.ok { text := none, candidates := none })).error = none ∧
    (generate_story (GenOutcome.ok { text := none, candidates := none })).story
      = "Error: Could not extract story from response" := by
  decide

/-- C4 (amended): when the downstream model call raises, the returned
Generation Attempt has `is_valid = false`, the `error` key set to the
exception text and an error message as story, and no exception propagates
(the embedding is a total function); a response that merely lacks
extractable text is instead returned with `is_valid = true` (with a
placeholder story) and no error key. -/
theorem generate_story_error_paths (msg : String) (resp : ModelResp) :
    (generate_story (GenOutcome.raised msg)).is_valid = false ∧
    (generate_story (GenOutcome.raised msg)).error = some msg ∧
    (generate_story (GenOutcome.raised msg)).story = "Error generating story: " ++ msg ∧
    (generate_story (GenOutcome.ok resp)).is_valid = true ∧
    (generate_story (GenOutcome.ok resp)).error = none :=
  ⟨rfl, rfl, rfl, rfl, rfl⟩

/-! ## Claim C6 -/

/-- C6: whenever the generator call inside `FactChecker.verify_fact` raises,
the returned Verification Record has verdict VERIFIED, `is_verified = true`,
score 5.0, `age_appropriate = true`, and a nonempty concerns field
containing the failure reason; no exception reaches the caller (the
embedding is total). -/
theorem verify_fact_failure_defaults (fact topic msg : String) :
    (verify_fact fact topic (Except.error msg)).verdict = "VERIFIED" ∧
    (verify_fact fact topic (Except.error msg)).is_verified = true ∧
    (verify_fact fact topic (Except.error msg)).score = PyFloat.ofNat 5 ∧
    (verify_fact fact topic (Except.error msg)).age_appropriate = true ∧
    (verify_fact fact topic (Except.error msg)).concerns = "Verification failed: " ++ msg ∧
    (verify_fact fact topic (Except.error msg)).concerns ≠ "" ∧
    strContains (verify_fact fact topic (Except.error msg)).concerns msg = true := by
  refine ⟨rfl, rfl, rfl, rfl, rfl, ?_, ?_⟩
  · exact append_ne_empty_of_left_ne "Verification failed: " msg (by decide)
  · exact strContains_append_right "Verification failed: " msg

/-! ## Claim C5 -/

/-- C5: a valid fallback story yields `fallback_used = true`,
`judge_score = 6.0`, `meets_quality_threshold = false`,
`mcp_enabled = false`, `revision_count = 0` and no Tool Call Records; a
failed fallback instead yields `judge_score = 0.0`, the failure reason as
feedback and a set `error` field; and the fallback-failure branch is the
only source of a result with `error` set (the full primary pipeline only
carries a set `error` when it delegated to a failing fallback). -/
theorem fallback_result_fields (backup : BackupResult) (req : String) :
    (backup.is_valid = true →
      generate_with_fallback backup req =
        { story := backup.story
          user_request := req
          revision_count := 0
          judge_score := PyFloat.ofNat 6
          judge_feedback := "Story generated using local Ollama fallback. Judge evaluation skipped."
          meets_quality_threshold := false
          tool_calls := []
          model_used := backup.model.getD "ollama"
          mcp_enabled := false
          fallback_used := true
          error := none }) ∧
    (backup.is_valid = false →
      (generate_with_fallback backup req).judge_score = PyFloat.ofNat 0 ∧
      (generate_with_fallback backup req).judge_feedback = backup.error.getD "Unknown error" ∧
      (generate_with_fallback backup req).error = some (backup.error.getD "Generation failed") ∧
      (generate_with_fallback backup req).fallback_used = true ∧
      (generate_with_fallback backup req).meets_quality_threshold = false) ∧
    (∀ (enableMcp : Bool) (maxRevisions : ℕ)
        (verifyO : String → String → Option VerificationRecord)
        (gen : String → Except String GenAttempt)
        (judgeOut : String → Except String String)
        (revise : String → GenAttempt) (req2 : String),
      (generate_with_gemini enableMcp maxRevisions verifyO gen judgeOut revise backup req2).error
          ≠ none →
        generate_with_gemini enableMcp maxRevisions verifyO gen judgeOut revise backup req2
            = generate_with_fallback backup req2 ∧
          backup.is_valid = false) := by
  refine ⟨?_, ?_, ?_⟩
  · intro hv
    unfold generate_with_fallback
    rw [hv]
    simp
  · intro hv
    unfold generate_with_fallback
    rw [hv]
    simp
  · intro enableMcp maxRevisions verifyO gen judgeOut revise req2 herr
    have hfb : ∀ (b : BackupResult) (r : String),
        (generate_with_fallback b r).error ≠ none → b.is_valid = false := by
      intro b r he
      by_contra hb
      have hb' : b.is_valid = true := by
        cases hbv : b.is_valid
        · exact absurd hbv hb
        · rfl
      unfold generate_with_fallback at he
      rw [hb'] at he
      simp at he
    rcases generate_with_gemini_primary_form enableMcp maxRevisions verifyO gen judgeOut revise
        backup req2 with hcase | ⟨s0, hprim⟩
    · rw [hcase] at herr
      exact ⟨hcase, hfb backup req2 herr⟩
    · rw [hprim] at herr
      exact absurd rfl herr

/-- Closed instance of `fallback_result_fields`: a valid fallback attempt
gets the placeholder score 6.0, and a failed one surfaces its reason. -/
theorem fallback_result_fields_witness :
    (generate_with_fallback
        { story := "s", is_valid := true, error := none, model := none } "r").judge_score
      = PyFloat.ofNat 6 ∧
    (generate_with_fallback
        { story := "", is_valid := false, error := some "boom", model := none } "r").judge_feedback
      = "boom" := by
  constructor
  · have h1 := (fallback_result_fields
      { story := "s", is_valid := true, error := none, model := none } "r").1 rfl
    rw [h1]
  · exact ((fallback_result_fields
      { story := "", is_valid := false, error := some "boom", model := none } "r").2.1 rfl).2.1

/-! ## Claim C2 -/

/-- The refinement loop never grows the revision count beyond
`max_revisions - 1`: it increments only under the guard
`rc < max_revisions - 1`. -/
lemma refineLoop_rc_le (enableMcp : Bool) (maxRevisions : ℕ)
    (judgeE : String → EvalRecord) (revise : String → GenAttempt) (userRequest : String) :
    ∀ (fuel : ℕ) (story : String) (rc : ℕ), rc ≤ maxRevisions - 1 →
      (refineLoop enableMcp maxRevisions judgeE revise userRequest fuel story rc).2
        ≤ maxRevisions - 1 := by
  intro fuel
  induction fuel with
  | zero =>
    intro story rc h
    exact h
  | succ n ih =>
    intro story rc h
    rw [refineLoop]
    dsimp only
    by_cases h1 : rc < maxRevisions
    · rw [if_pos h1]
      by_cases h2 : (judgeE story).meets_threshold = true
      · rw [if_pos h2]
        exact h
      · rw [if_neg h2]
        by_cases h3 : rc < maxRevisions - 1
        · rw [if_pos h3]
          split <;> split <;> first
          | exact ih _ _ (by omega)
          | exact h
        · rw [if_neg h3]
          exact h
    · rw [if_neg h1]
      exact h

/-- C2: on the primary (non-fallback) path with configured
`max_revisions = m ≥ 1`, the returned `revision_count` is at most `m - 1`,
i.e. at most `m` generation attempts counting the initial one. -/
theorem revision_count_le_max_revisions_sub_one (enableMcp : Bool) (maxRevisions : ℕ)
    (verifyO : String → String → Option VerificationRecord)
    (gen : String → Except String GenAttempt)
    (judgeOut : String → Except String String)
    (revise : String → GenAttempt) (backup : BackupResult) (req : String)
    (_hm : 1 ≤ maxRevisions)
    (hp : (generate_with_gemini enableMcp maxRevisions verifyO gen judgeOut revise backup
        req).fallback_used = false) :
    (generate_with_gemini enableMcp maxRevisions verifyO gen judgeOut revise backup
        req).revision_count ≤ maxRevisions - 1 := by
  rcases generate_with_gemini_primary_form enableMcp maxRevisions verifyO gen judgeOut revise
      backup req with hcase | ⟨s0, hprim⟩
  · rw [hcase, generate_with_fallback_fallback_used backup req] at hp
    exact Bool.noConfusion hp
  · rw [hprim]
    exact refineLoop_rc_le enableMcp maxRevisions _ revise req maxRevisions s0 0 (Nat.zero_le _)

/-- Closed instance of `revision_count_le_max_revisions_sub_one` with
`max_revisions = 3` and concrete oracles: the judge approves at once, so
zero revisions are used and `0 ≤ 2`. -/
theorem revision_count_le_max_revisions_sub_one_witness :
    1 ≤ 3 ∧
    (generate_with_gemini false 3 (fun _ _ => none)
        (fun s => Except.ok { story := s, is_valid := true, error := none })
        (fun _ => Except.ok "OVERALL_SCORE: 9/10")
        (fun _ => { story := "r2", is_valid := true, error := none })
        { story := "", is_valid := false, error := some "no ollama", model := none }
        "a tale").fallback_used = false ∧
    (generate_with_gemini false 3 (fun _ _ => none)
        (fun s => Except.ok { story := s, is_valid := true, error := none })
        (fun _ => Except.ok "OVERALL_SCORE: 9/10")
        (fun _ => { story := "r2", is_valid := true, error := none })
        { story := "", is_valid := false, error := some "no ollama", model := none }
        "a tale").revision_count ≤ 3 - 1 :=
  ⟨by decide, by decide,
    revision_count_le_max_revisions_sub_one false 3 (fun _ _ => none)
      (fun s => Except.ok { story := s, is_valid := true, error := none })
      (fun _ => Except.ok "OVERALL_SCORE: 9/10")
      (fun _ => { story := "r2", is_valid := true, error := none })
      { story := "", is_valid := false, error := some "no ollama", model := none }
      "a tale" (by decide) (by decide)⟩

/-! ## Claim C3 -/

/-- C3: on the primary path the final dictionary is assembled from a fresh
evaluation of the final story (orchestration.py line 252), so re-invoking
the evaluator (a deterministic function of the model outcome for that
story) on the returned story text reproduces `judge_score`; the score never
reflects a discarded intermediate candidate. -/
theorem judge_score_matches_final_story (enableMcp : Bool) (maxRevisions : ℕ)
    (verifyO : String → String → Option VerificationRecord)
    (gen : String → Except String GenAttempt)
    (judgeOut : String → Except String String)
    (revise : String → GenAttempt) (backup : BackupResult) (req : String)
    (hp : (generate_with_gemini enableMcp maxRevisions verifyO gen judgeOut revise backup
        req).fallback_used = false) :
    (generate_with_gemini enableMcp maxRevisions verifyO gen judgeOut revise backup
        req).judge_score =
      (evaluate_story (judgeOut
        (generate_with_gemini enableMcp maxRevisions verifyO gen judgeOut revise backup
          req).story)).overall_score := by
  rcases generate_with_gemini_primary_form enableMcp maxRevisions verifyO gen judgeOut revise
      backup req with hcase | ⟨s0, hprim⟩
  · rw [hcase, generate_with_fallback_fallback_used backup req] at hp
    exact Bool.noConfusion hp
  · rw [hprim]

/-- Closed instance of `judge_score_matches_final_story`: with a judge that
always answers with a fixed 6.2 score and a valid revision path, the
returned score equals a fresh evaluation of the returned story. -/
theorem judge_score_matches_final_story_witness :
    (generate_with_gemini false 2 (fun _ _ => none)
        (fun s => Except.ok { story := s, is_valid := true, error := none })
        (fun _ => Except.ok "OVERALL_SCORE: 6.2/10\nVERDICT: NEEDS_REVISION")
        (fun _ => { story := "revised tale", is_valid := true, error := none })
        { story := "", is_valid := false, error := some "no ollama", model := none }
        "a tale").fallback_used = false ∧
    (generate_with_gemini false 2 (fun _ _ => none)
        (fun s => Except.ok { story := s, is_valid := true, error := none })
        (fun _ => Except.ok "OVERALL_SCORE: 6.2/10\nVERDICT: NEEDS_REVISION")
        (fun _ => { story := "revised tale", is_valid := true, error := none })
        { story := "", is_valid := false, error := some "no ollama", model := none }
        "a tale").judge_score =
      (evaluate_story (Except.ok "OVERALL_SCORE: 6.2/10\nVERDICT: NEEDS_REVISION")).overall_score :=
  ⟨by decide,
    judge_score_matches_final_story false 2 (fun _ _ => none)
      (fun s => Except.ok { story := s, is_valid := true, error := none })
      (fun _ => Except.ok "OVERALL_SCORE: 6.2/10\nVERDICT: NEEDS_REVISION")
      (fun _ => { story := "revised tale", is_valid := true, error := none })
      { story := "", is_valid := false, error := some "no ollama", model := none }
      "a tale" (by decide)⟩

/-! ## Claim C7 -/

/-- An association list with no matching key yields no lookup result. -/
lemma lookupKey_eq_none {l : List (String × String)} {k : String}
    (h : ∀ p ∈ l, p.1 ≠ k) : lookupKey l k = none := by
  have hf : l.find? (fun p => p.1 = k) = none := by
    apply List.find?_eq_none.mpr
    intro p hp hdec
    exact h p hp (of_decide_eq_true hdec)
  rw [lookupKey, hf]
  rfl

/-- If the flattened key→fact view has no entry for `tl`, then no single
category has one either. -/
lemma storedFact?_none (tl : String) (h : storedFact? tl = none) :
    ∀ cat ∈ EDUCATIONAL_FACTS, lookupKey cat.2 tl = none := by
  intro cat hc
  apply lookupKey_eq_none
  intro p hp hpk
  have hmem : p ∈ (EDUCATIONAL_FACTS.map (fun c => c.2)).flatten := by
    simp only [List.mem_flatten, List.mem_map]
    exact ⟨cat.2, ⟨cat, hc, rfl⟩, hp⟩
  unfold storedFact? at h
  cases hff : ((EDUCATIONAL_FACTS.map (fun c => c.2)).flatten).find? (fun q => q.1 = tl) with
  | none =>
    exact List.find?_eq_none.mp hff p hmem (decide_eq_true hpk)
  | some q =>
    rw [lookupKey, hff] at h
    exact Option.noConfusion h

/-- When no category holds `tl` as a key, the category scan reduces to the
first category-name match. -/
lemma factSearch_no_key (topic tl : String) :
    ∀ cats : List (String × List (String × String)),
      (∀ cat ∈ cats, lookupKey cat.2 tl = none) →
      factSearch topic tl cats
        = (cats.find? (fun c => catNameMatch tl c)).map (fun c => catMessage topic c) := by
  intro cats
  induction cats with
  | nil => intro _; rfl
  | cons c rest ih =>
    intro h
    rw [factSearch, h c (List.mem_cons_self c rest)]
    cases hnm : catNameMatch tl c with
    | true =>
      rw [List.find?_cons_of_pos _ hnm]
      rfl
    | false =>
      rw [List.find?_cons_of_neg _ (by rw [hnm]; exact Bool.false_ne_true)]
      exact ih (fun cat hc => h cat (List.mem_cons_of_mem c hc))

/-- The category scan characterized in one expression: its reply is decided
by the first category matching on key or on name, with the key taking
precedence inside that category. -/
lemma factSearch_char (topic tl : String) :
    ∀ cats : List (String × List (String × String)),
      factSearch topic tl cats
        = match cats.find? (fun c => (lookupKey c.2 tl).isSome || catNameMatch tl c) with
          | none => none
          | some c0 =>
            match lookupKey c0.2 tl with
            | some fact => some fact
            | none => some (catMessage topic c0) := by
  intro cats
  induction cats with
  | nil => rfl
  | cons c rest ih =>
    rw [factSearch]
    cases hk : lookupKey c.2 tl with
    | some fact =>
      have hpred : ((lookupKey c.2 tl).isSome || catNameMatch tl c) = true := by
        rw [hk]
        rfl
      rw [@List.find?_cons_of_pos _
        (fun c0 => (lookupKey c0.2 tl).isSome || catNameMatch tl c0) c rest hpred]
      dsimp only
      rw [hk]
    | none =>
      cases hnm : catNameMatch tl c with
      | true =>
        have hpred : ((lookupKey c.2 tl).isSome || catNameMatch tl c) = true := by
          rw [hk, hnm]
          rfl
        rw [@List.find?_cons_of_pos _
          (fun c0 => (lookupKey c0.2 tl).isSome || catNameMatch tl c0) c rest hpred]
        dsimp only
        rw [hk]
        rfl
      | false =>
        have hpred : ¬(((lookupKey c.2 tl).isSome || catNameMatch tl c) = true) := by
          rw [hk, hnm]
          decide
        rw [@List.find?_cons_of_neg _
          (fun c0 => (lookupKey c0.2 tl).isSome || catNameMatch tl c0) c rest hpred]
        exact ih

/-- A stored key is always served its stored fact: in this table, for every
key, the first category matching on key or name is the one owning the key —
a closed fact checked over the whole table at once. -/
lemma getFact_of_storedKey (topic f : String)
    (h : storedFact? (pyLowerStrip topic) = some f) :
    getEducationalFactImpl topic = f := by
  have hmem := lookupKey_some h
  have hkeymem : pyLowerStrip topic ∈ allTopicKeys := by
    simp only [List.mem_flatten, List.mem_map] at hmem
    obtain ⟨l, ⟨cat, hcat, rfl⟩, hpl⟩ := hmem
    exact mem_allTopicKeys hcat hpl
  have hkeys : ∀ k ∈ allTopicKeys,
      (EDUCATIONAL_FACTS.find? (fun c => (lookupKey c.2 k).isSome || catNameMatch k c)).map
          (fun c => lookupKey c.2 k)
        = some (storedFact? k) := by decide
  have hf := hkeys _ hkeymem
  rw [h] at hf
  unfold getEducationalFactImpl
  dsimp only
  rw [factSearch_char topic (pyLowerStrip topic) EDUCATIONAL_FACTS]
  cases hfind : EDUCATIONAL_FACTS.find? (fun c =>
      (lookupKey c.2 (pyLowerStrip topic)).isSome || catNameMatch (pyLowerStrip topic) c) with
  | none =>
    rw [hfind] at hf
    exact Option.noConfusion hf
  | some c =>
    rw [hfind] at hf
    have hlk : lookupKey c.2 (pyLowerStrip topic) = some f := Option.some.inj hf
    dsimp only
    rw [hlk]

/-- C7 counterexample: the topic "space" equals no stored topic key, yet the
lookup does not return the not-found message (it category-matches and
returns a general fact) — refuting "otherwise returns the not-found
message" and "no category-keyword matching occurs at this layer". -/
theorem fact_lookup_category_match_cex :
    storedFact? (pyLowerStrip "space") = none ∧
    getEducationalFactImpl "space"
      = "Here\x27s a fact about space: " ++
        "Mars is the fourth planet from the Sun and is known as the Red Planet due to iron oxide on its surface. A day on Mars is about 24.6 hours, similar to Earth. Mars has two small moons: Phobos and Deimos." ∧
    getEducationalFactImpl "space" ≠ notFoundMessage "space" := by
  refine ⟨by decide, by decide, ?_⟩
  decide

/-- C7 (amended): the lookup returns the stored fact exactly when the
lowercased, trimmed topic equals a stored topic key; otherwise, if the
normalized topic matches a category name (the topic being a substring of
the category name, or the category name a substring of the topic), it
returns a general "Here is a fact about {topic}" message built from that
category\x27s first stored fact; only otherwise does it return the
not-found message (which enumerates the first 10 known topics).  The lookup
is a pure function, so it has no side effects. -/
theorem fact_lookup_characterization (topic : String) :
    (∀ f, storedFact? (pyLowerStrip topic) = some f → getEducationalFactImpl topic = f) ∧
    (storedFact? (pyLowerStrip topic) = none →
      (∀ cat, firstNameMatchCat? (pyLowerStrip topic) = some cat →
        getEducationalFactImpl topic = catMessage topic cat) ∧
      (firstNameMatchCat? (pyLowerStrip topic) = none →
        getEducationalFactImpl topic = notFoundMessage topic)) := by
  refine ⟨fun f hf => getFact_of_storedKey topic f hf, fun hnone => ⟨?_, ?_⟩⟩
  · intro cat hcat
    unfold firstNameMatchCat? at hcat
    unfold getEducationalFactImpl
    dsimp only
    rw [factSearch_no_key topic (pyLowerStrip topic) EDUCATIONAL_FACTS
      (storedFact?_none (pyLowerStrip topic) hnone), hcat]
    rfl
  · intro hcat
    unfold firstNameMatchCat? at hcat
    unfold getEducationalFactImpl
    dsimp only
    rw [factSearch_no_key topic (pyLowerStrip topic) EDUCATIONAL_FACTS
      (storedFact?_none (pyLowerStrip topic) hnone), hcat]
    rfl

/-- Closed instance of `fact_lookup_characterization`: "Mars" normalizes to
the stored key "mars" and is served its stored fact verbatim. -/
theorem fact_lookup_characterization_witness :
    storedFact? (pyLowerStrip "Mars")
      = some "Mars is the fourth planet from the Sun and is known as the Red Planet due to iron oxide on its surface. A day on Mars is about 24.6 hours, similar to Earth. Mars has two small moons: Phobos and Deimos." ∧
    getEducationalFactImpl "Mars"
      = "Mars is the fourth planet from the Sun and is known as the Red Planet due to iron oxide on its surface. A day on Mars is about 24.6 hours, similar to Earth. Mars has two small moons: Phobos and Deimos." :=
  ⟨by decide, (fact_lookup_characterization "Mars").1 _ (by decide)⟩

/-! ## Claim C8 -/

/-- The inline knowledge-base membership test of `expand_topic` agrees with
membership in the flattened topic-key list. -/
lemma anyKey_eq_contains (tl : String) :
    (EDUCATIONAL_FACTS.any (fun c => c.2.any (fun p => p.1 = tl)))
      = allTopicKeys.contains tl := by
  rw [Bool.eq_iff_iff]
  rw [show (allTopicKeys.contains tl = true) ↔ tl ∈ allTopicKeys from List.elem_iff]
  simp only [List.any_eq_true, decide_eq_true_eq, allTopicKeys,
    List.mem_flatten, List.mem_map]
  constructor
  · rintro ⟨c, hc, p, hp, hpk⟩
    exact ⟨c.2.map (fun q => q.1), ⟨c, hc, rfl⟩, List.mem_map.mpr ⟨p, hp, hpk⟩⟩
  · rintro ⟨l, ⟨c, hc, rfl⟩, htl⟩
    obtain ⟨p, hp, hpk⟩ := List.mem_map.mp htl
    exact ⟨c, hc, p, hp, hpk⟩

/-- C8: `expand_topic` is the staged search the spec describes — exact alias
match, then substring alias match, then exact Fact Store key, first match
winning — and consequently every input whose normalized form contains
"red planet" resolves to canonical topic "mars" (that alias is first in
declared order, and it is the only alias containing the phrase), with
`get_fact_with_expansion` reporting `expanded = true`. -/
theorem expand_topic_staged_and_red_planet :
    (∀ topic : String, expand_topic topic = expandTopicSpec topic) ∧
    (∀ text : String, strContains (pyLowerStrip text) "red planet" = true →
      expand_topic text = some "mars" ∧ (get_fact_with_expansion text).expanded = true) := by
  constructor
  · intro topic
    unfold expand_topic expandTopicSpec
    dsimp only
    cases h1 : lookupKey topic_aliases (pyLowerStrip topic) with
    | some c => rfl
    | none =>
      cases h2 : topic_aliases.find? (fun p => strContains (pyLowerStrip topic) p.1) with
      | some p => rfl
      | none =>
        rw [anyKey_eq_contains]
        rfl
  · intro text hsub
    have hmars : expand_topic text = some "mars" := by
      unfold expand_topic
      dsimp only
      cases h1 : lookupKey topic_aliases (pyLowerStrip text) with
      | some c =>
        have hmem := lookupKey_some h1
        have halias : ∀ p ∈ topic_aliases,
            strContains p.1 "red planet" = false ∨ p.2 = "mars" := by decide
        rcases halias _ hmem with hcf | hcm
        · have hcf' : strContains (pyLowerStrip text) "red planet" = false := hcf
          rw [hsub] at hcf'
          exact Bool.noConfusion hcf'
        · have hcm' : c = "mars" := hcm
          subst hcm'
          rfl
      | none =>
        have hfst : topic_aliases.find? (fun p => strContains (pyLowerStrip text) p.1)
            = some ("red planet", "mars") := by
          unfold topic_aliases
          exact List.find?_cons_of_pos _ hsub
        rw [hfst]
    refine ⟨hmars, ?_⟩
    unfold get_fact_with_expansion
    dsimp only
    rw [hmars]
    rfl

/-- Closed instance of `expand_topic_staged_and_red_planet` at the spec
scenario "Tell me about a red planet adventure". -/
theorem expand_topic_red_planet_witness :
    strContains (pyLowerStrip "Tell me about a red planet adventure") "red planet" = true ∧
    expand_topic "Tell me about a red planet adventure" = some "mars" ∧
    (get_fact_with_expansion "Tell me about a red planet adventure").expanded = true :=
  ⟨by decide,
    (expand_topic_staged_and_red_planet.2 "Tell me about a red planet adventure" (by decide)).1,
    (expand_topic_staged_and_red_planet.2 "Tell me about a red planet adventure" (by decide)).2⟩

/-! ## Claim C9 -/

/-- Every category the keyword table can infer is a category of the fact
table, so the guard `category in EDUCATIONAL_FACTS` always passes when
inference succeeded. -/
lemma inferred_cat_in_facts {topic c : String} (h : infer_category topic = some c) :
    (EDUCATIONAL_FACTS.any (fun p => p.1 = c)) = true := by
  unfold infer_category at h
  dsimp only at h
  cases hf : category_keywords.find? (fun p =>
      p.2.any (fun k => strContains (pyLower topic) k)) with
  | none =>
    rw [hf] at h
    exact Option.noConfusion h
  | some p =>
    rw [hf] at h
    have hc : p.1 = c := Option.some.inj h
    have hmem := List.mem_of_find?_eq_some hf
    have hcats : ∀ q ∈ category_keywords, (EDUCATIONAL_FACTS.any (fun r => r.1 = q.1)) = true := by
      decide
    rw [← hc]
    exact hcats p hmem

/-- C9: `get_fact_with_expansion` tries expansion first and, when it yields
a canonical topic, fetches that topic\x27s fact with `used_topic` set to it;
otherwise, when category inference succeeds, it fetches the fact of the
category\x27s first declared topic; otherwise it fetches with the raw
string — and `expanded` is true exactly when expansion succeeded, while
`category_inferred` is true exactly when inference succeeded. -/
theorem get_fact_with_expansion_characterization (topic : String) :
    (get_fact_with_expansion topic).original_topic = topic ∧
    (get_fact_with_expansion topic).category = infer_category topic ∧
    (get_fact_with_expansion topic).expanded = (expand_topic topic).isSome ∧
    (get_fact_with_expansion topic).category_inferred = (infer_category topic).isSome ∧
    (∀ e, expand_topic topic = some e →
      (get_fact_with_expansion topic).used_topic = e ∧
      (get_fact_with_expansion topic).fact = getEducationalFactImpl e) ∧
    (expand_topic topic = none → ∀ c, infer_category topic = some c →
      (get_fact_with_expansion topic).used_topic = firstTopicOf c ∧
      (get_fact_with_expansion topic).fact = getEducationalFactImpl (firstTopicOf c)) ∧
    (expand_topic topic = none → infer_category topic = none →
      (get_fact_with_expansion topic).used_topic = topic ∧
      (get_fact_with_expansion topic).fact = getEducationalFactImpl topic) := by
  refine ⟨?_, ?_, ?_, ?_, ?_, ?_, ?_⟩
  · unfold get_fact_with_expansion
    dsimp only
  · unfold get_fact_with_expansion
    dsimp only
  · unfold get_fact_with_expansion
    dsimp only
  · unfold get_fact_with_expansion
    dsimp only
  · intro e he
    unfold get_fact_with_expansion
    dsimp only
    rw [he]
    exact ⟨rfl, rfl⟩
  · intro hnone c hc
    unfold get_fact_with_expansion
    dsimp only
    rw [hnone, hc]
    dsimp only
    rw [inferred_cat_in_facts hc]
    exact ⟨rfl, rfl⟩
  · intro hnone hcn
    unfold get_fact_with_expansion
    dsimp only
    rw [hnone, hcn]
    exact ⟨rfl, rfl⟩

/-- Closed instance of `get_fact_with_expansion_characterization`: the raw
topic "dinosaur party" expands via the alias "dinosaur" to canonical topic
"t-rex", whose stored fact is fetched. -/
theorem get_fact_with_expansion_witness :
    expand_topic "dinosaur party" = some "t-rex" ∧
    (get_fact_with_expansion "dinosaur party").used_topic = "t-rex" ∧
    (get_fact_with_expansion "dinosaur party").fact = getEducationalFactImpl "t-rex" :=
  ⟨by decide,
    ((get_fact_with_expansion_characterization "dinosaur party").2.2.2.2.1 "t-rex" (by decide)).1,
    ((get_fact_with_expansion_characterization "dinosaur party").2.2.2.2.1 "t-rex" (by decide)).2⟩

/-! ## Claim C10 -/

/-- Phase one of detection finds nothing when no topic key (verbatim or
hyphen-to-space) occurs in the text. -/
lemma detectFromTopics_nil (textLower : String)
    (h : ∀ t ∈ allTopicKeys, strContains textLower t = false ∧
      strContains textLower (pyReplaceChar '-' ' ' t) = false) :
    detectFromTopics textLower = [] := by
  unfold detectFromTopics
  rw [List.flatten_eq_nil_iff]
  intro l hl
  simp only [List.mem_map] at hl
  obtain ⟨cat, hcat, rfl⟩ := hl
  rw [List.map_eq_nil_iff, List.filter_eq_nil_iff]
  intro p hp
  have hk := h p.1 (mem_allTopicKeys hcat hp)
  intro habs
  rw [hk.1, hk.2] at habs
  exact Bool.noConfusion habs

/-- Phase two leaves the accumulator unchanged when no alias occurs. -/
lemma detectAddAliases_id (textLower : String)
    (h : ∀ p ∈ topic_aliases, strContains textLower p.1 = false) :
    ∀ acc, detectAddAliases textLower acc = acc := by
  unfold detectAddAliases
  suffices hgen : ∀ l : List (String × String),
      (∀ p ∈ l, strContains textLower p.1 = false) →
      ∀ acc : List String,
        l.foldl (fun acc p =>
          if strContains textLower p.1 && !(acc.contains p.2) then acc ++ [p.2] else acc) acc
          = acc by
    exact fun acc => hgen topic_aliases h acc
  intro l
  induction l with
  | nil => intro _ acc; rfl
  | cons q rest ih =>
    intro hl acc
    rw [List.foldl_cons, hl q (List.mem_cons_self q rest)]
    exact ih (fun p hp => hl p (List.mem_cons_of_mem q hp)) acc

/-- Phase three leaves the accumulator unchanged when no category keyword
occurs. -/
lemma detectAddKeywords_id (textLower : String)
    (h : ∀ p ∈ category_keywords, ∀ k ∈ p.2, strContains textLower k = false) :
    ∀ acc, detectAddKeywords textLower acc = acc := by
  unfold detectAddKeywords
  suffices hgen : ∀ l : List (String × List String),
      (∀ p ∈ l, ∀ k ∈ p.2, strContains textLower k = false) →
      ∀ acc : List String,
        l.foldl (fun acc p =>
          if p.2.any (fun k => strContains textLower k) then
            if EDUCATIONAL_FACTS.any (fun c => c.1 = p.1) then
              (if acc.contains (firstTopicOf p.1) then acc else acc ++ [firstTopicOf p.1])
            else acc
          else acc) acc = acc by
    exact fun acc => hgen category_keywords h acc
  intro l
  induction l with
  | nil => intro _ acc; rfl
  | cons q rest ih =>
    intro hl acc
    have hany : (q.2.any (fun k => strContains textLower k)) = false := by
      rw [List.any_eq_false]
      intro k hk habs
      rw [hl q (List.mem_cons_self q rest) k hk] at habs
      exact Bool.noConfusion habs
    rw [List.foldl_cons, hany]
    exact ih (fun p hp => hl p (List.mem_cons_of_mem q hp)) acc

/-- Under the C10 hypothesis, detection returns the empty list. -/
lemma detect_topics_nil (text : String) (h : noKnownTopicIn text = true) :
    detect_topics_in_text text = [] := by
  unfold noKnownTopicIn at h
  dsimp only at h
  rw [Bool.and_eq_true, Bool.and_eq_true] at h
  obtain ⟨⟨h1, h2⟩, h3⟩ := h
  simp only [List.all_eq_true, Bool.and_eq_true, Bool.not_eq_true'] at h1 h2 h3
  unfold detect_topics_in_text
  dsimp only
  rw [detectFromTopics_nil (pyLower text) h1, detectAddAliases_id (pyLower text) h2,
    detectAddKeywords_id (pyLower text) h3]
  rfl

/-- C10: when no Fact Store topic, alias or category keyword occurs in the
request (case-insensitively, hyphens optionally spaced), `detect_topics_in_text`
returns nothing, the orchestrator accumulates no Tool Call Records, the
prompt sent to the generator is the unmodified request, and the final
result (whatever the model oracles do) carries an empty `tool_calls`
list. -/
theorem no_topic_no_toolcalls (text : String) (h : noKnownTopicIn text = true) :
    detect_topics_in_text text = [] ∧
    (∀ (enableMcp : Bool) (verifyO : String → String → Option VerificationRecord),
      orchestratorToolCalls enableMcp verifyO text = [] ∧
      orchestratorPrompt enableMcp verifyO text = text) ∧
    (∀ (enableMcp : Bool) (maxRevisions : ℕ)
        (verifyO : String → String → Option VerificationRecord)
        (gen : String → Except String GenAttempt)
        (judgeOut : String → Except String String)
        (revise : String → GenAttempt) (backup : BackupResult),
      (generate_with_gemini enableMcp maxRevisions verifyO gen judgeOut revise backup
        text).tool_calls = []) := by
  have hdet := detect_topics_nil text h
  have hfetch : ∀ verifyO : String → String → Option VerificationRecord,
      detect_and_fetch_facts verifyO text = [] := by
    intro verifyO
    unfold detect_and_fetch_facts
    rw [hdet]
    rfl
  have htc : ∀ (enableMcp : Bool) (verifyO : String → String → Option VerificationRecord),
      orchestratorToolCalls enableMcp verifyO text = [] := by
    intro enableMcp verifyO
    unfold orchestratorToolCalls
    cases enableMcp
    · rfl
    · exact hfetch verifyO
  refine ⟨hdet, ?_, ?_⟩
  · intro enableMcp verifyO
    refine ⟨htc enableMcp verifyO, ?_⟩
    unfold orchestratorPrompt
    cases enableMcp
    · rfl
    · dsimp only
      rw [hfetch verifyO]
      rfl
  · intro enableMcp maxRevisions verifyO gen judgeOut revise backup
    rcases generate_with_gemini_primary_form enableMcp maxRevisions verifyO gen judgeOut revise
        backup text with hc | ⟨s0, hp⟩
    · rw [hc]
      exact generate_with_fallback_tool_calls backup text
    · rw [hp]
      exact htc enableMcp verifyO

/-- Closed instance of `no_topic_no_toolcalls`: the request
"a quiet evening nap" mentions no known topic, alias or keyword. -/
theorem no_topic_no_toolcalls_witness :
    noKnownTopicIn "a quiet evening nap" = true ∧
    detect_topics_in_text "a quiet evening nap" = [] ∧
    orchestratorToolCalls true (fun _ _ => none) "a quiet evening nap" = [] ∧
    orchestratorPrompt true (fun _ _ => none) "a quiet evening nap" = "a quiet evening nap" :=
  ⟨by decide, (no_topic_no_toolcalls "a quiet evening nap" (by decide)).1,
    ((no_topic_no_toolcalls "a quiet evening nap" (by decide)).2.1 true (fun _ _ => none)).1,
    ((no_topic_no_toolcalls "a quiet evening nap" (by decide)).2.1 true (fun _ _ => none)).2⟩
